import Mathlib

/-!
Shallow embedding of the go-qemu library (`machine.go`): a `Machine`
descriptor with its mutation methods, the argument-rendering performed by
`Start`, and a model of the launch sequence (spawn, background wait,
grace interval, non-blocking channel read).
-/

namespace Qemu

/-- `Drive` from `machine.go`: an image file path and its format. -/
structure Drive where
  Path : String
  Format : String
deriving DecidableEq, Repr

/-- Modelled from the spec: the `NetDev` network-interface record
(`NetworkInterface{kind, id, ifName (optional), macAddress (optional)}`);
its declaration is not in `machine.go`, but its four string fields
`Type`, `ID`, `IfName`, `MAC` are fixed by their uses there
(lines 104-114). Optional fields are empty strings when unset, matching
the `len(...) > 0` tests in the source. -/
structure NetDev where
  «Type» : String
  ID : String
  IfName : String
  MAC : String
deriving DecidableEq, Repr

/-- Modelled from the spec: the external `Image` descriptor providing
`(path, format)` fields; its declaration is outside `machine.go`, but
`AddDriveImage` reads exactly `img.Path` and `img.Format` (line 56). -/
structure Image where
  Path : String
  Format : String
deriving DecidableEq, Repr

/-- `Machine` from `machine.go`: CPU/memory sizing plus the attached
resources. `Cores` is a Go `int` (embedded as `Int`); `Memory` is a
Go `uint64` (embedded as `Nat`, rendered in decimal). -/
structure Machine where
  Cores : Int
  Memory : Nat
  cd : String
  vnc : String
  monitor : String
  drives : List Drive
  ifaces : List NetDev
deriving DecidableEq, Repr

/-- `NewMachine` from `machine.go`: zero value of `Machine` with the
given sizing; all resource fields start empty. -/
def NewMachine (cores : Int) (memory : Nat) : Machine :=
  { Cores := cores, Memory := memory, cd := "", vnc := "", monitor := "",
    drives := [], ifaces := [] }

/-- `AddCDRom` from `machine.go`: `m.cd = dev`. -/
def Machine.AddCDRom (m : Machine) (dev : String) : Machine :=
  { m with cd := dev }

/-- `AddDrive` from `machine.go`: append `d` to `m.drives`. -/
def Machine.AddDrive (m : Machine) (d : Drive) : Machine :=
  { m with drives := m.drives ++ [d] }

/-- `AddDriveImage` from `machine.go`: append `Drive{img.Path, img.Format}`. -/
def Machine.AddDriveImage (m : Machine) (img : Image) : Machine :=
  { m with drives := m.drives ++ [Drive.mk img.Path img.Format] }

/-- `AddNetworkDevice` from `machine.go`: append `netdev` to `m.ifaces`. -/
def Machine.AddNetworkDevice (m : Machine) (netdev : NetDev) : Machine :=
  { m with ifaces := m.ifaces ++ [netdev] }

/-- `AddVNC` from `machine.go`: `m.vnc = fmt.Sprintf("%s:%d", addr, port)`. -/
def Machine.AddVNC (m : Machine) (addr : String) (port : Int) : Machine :=
  { m with vnc := addr ++ ":" ++ toString port }

/-- `AddMonitorUnix` from `machine.go`: `m.monitor = dev`. -/
def Machine.AddMonitorUnix (m : Machine) (dev : String) : Machine :=
  { m with monitor := dev }

/-- Value built for a `-drive` flag in `Start`:
`fmt.Sprintf("file=%s,format=%s", drive.Path, drive.Format)`. -/
def driveValue (d : Drive) : String :=
  "file=" ++ d.Path ++ ",format=" ++ d.Format

/-- Value built for a `-netdev` flag in `Start` (lines 104-107):
`"%s,id=%s"` from type and id, with `",ifname=%s"` appended when the
interface name is non-empty. -/
def backendValue (i : NetDev) : String :=
  let s := i.«Type» ++ ",id=" ++ i.ID
  if 0 < i.IfName.length then s ++ ",ifname=" ++ i.IfName else s

/-- Value built for a `-device` flag in `Start` (lines 112-115):
`"virtio-net,netdev=%s"` from the id, with `",mac=%s"` appended when the
MAC address is non-empty. -/
def deviceValue (i : NetDev) : String :=
  let s := "virtio-net,netdev=" ++ i.ID
  if 0 < i.MAC.length then s ++ ",mac=" ++ i.MAC else s

/-- The argument list built by `Start` (`machine.go` lines 82-129),
mirroring the sequence of appends to `args`. -/
def renderArgs (m : Machine) (kvm : Bool) : List String :=
  let args := ["-smp", toString m.Cores, "-m", toString m.Memory]
  let args := if kvm then args ++ ["-enable-kvm"] else args
  let args := if 0 < m.cd.length then args ++ ["-cdrom", m.cd] else args
  let args := m.drives.foldl (fun a drive => a ++ ["-drive", driveValue drive]) args
  let args := if m.ifaces.length = 0 then args ++ ["-net", "none"] else args
  let args := m.ifaces.foldl
    (fun a iface => a ++ ["-netdev", backendValue iface, "-device", deviceValue iface]) args
  let args := if 0 < m.vnc.length then args ++ ["-vnc", m.vnc] else args
  if 0 < m.monitor.length then args ++ ["-qmp", "unix:" ++ m.monitor ++ ",server,nowait"]
  else args

/-- The binary name built by `Start`: `fmt.Sprintf("qemu-system-%s", arch)`. -/
def qemuBinary (arch : String) : String :=
  "qemu-system-" ++ arch

/-- The rendering pass of `Start` (lines 81-129) as a state-passing
function: it reads the descriptor and produces the binary name together
with the argument list; `Start` never assigns to any field of `m`, so the
post-state is the input descriptor. -/
def startRender (m : Machine) (arch : String) (kvm : Bool) :
    Machine × String × List String :=
  (m, qemuBinary arch, renderArgs m kvm)

/-- Environment oracle for the effectful part of `Start`: the outcome of
`cmd.Start()` (`spawnErr`), the process handle obtained on success
(`pid`), the outcome of `cmd.Wait()` in the background goroutine
(`waitErr`, `some msg` when the exit was non-clean), and whether the
channel send of the goroutine completed before the foreground `select` ran,
i.e. within the 50ms grace interval (`deliveredInGrace`). -/
structure LaunchEnv where
  spawnErr : Option String
  pid : Int
  waitErr : Option String
  deliveredInGrace : Bool
deriving DecidableEq, Repr

/-- The values the background goroutine (lines 143-149) sends on `errc`:
one wrapped error `fmt.Errorf("\x27qemu-system-%s\x27: %s", arch, err)`
when `cmd.Wait()` returned a non-nil error, nothing otherwise. -/
def channelSends (arch : String) (waitErr : Option String) : List String :=
  match waitErr with
  | some e => ["\x27qemu-system-" ++ arch ++ "\x27: " ++ e]
  | none => []

/-- The single non-blocking read of the `select` statement (lines
154-161): it observes the first value sent on `errc` if the send
completed before the read, and nothing otherwise. -/
def selectRecv (delivered : Bool) (sends : List String) : Option String :=
  if delivered then sends.head? else none

/-- `Start` (`machine.go` lines 80-163) over the environment oracle:
render the invocation, spawn (returning the spawn error unwrapped on
failure), sleep the grace interval, then perform one non-blocking read
of the completion channel; a received error is returned in place of the
handle, otherwise the process handle is returned with a nil error. -/
def start (m : Machine) (arch : String) (kvm : Bool) (env : LaunchEnv) :
    Option Int × Option String :=
  let _invocation := (qemuBinary arch, renderArgs m kvm)
  match env.spawnErr with
  | some e => (none, some e)
  | none =>
    match selectRecv env.deliveredInGrace (channelSends arch env.waitErr) with
    | some vmerr => (none, some vmerr)
    | none => (some env.pid, none)

/-! Section views of the argument list, used to state ordering claims. -/

/-- Sizing section: the two required flag/value pairs (line 82). -/
def sizingArgs (m : Machine) : List String :=
  ["-smp", toString m.Cores, "-m", toString m.Memory]

/-- KVM section (lines 84-86). -/
def kvmArgs (kvm : Bool) : List String :=
  if kvm then ["-enable-kvm"] else []

/-- CD-ROM section (lines 88-91). -/
def cdArgs (m : Machine) : List String :=
  if 0 < m.cd.length then ["-cdrom", m.cd] else []

/-- The flag/value pair contributed by one drive (lines 94-95). -/
def driveArgs (d : Drive) : List String :=
  ["-drive", driveValue d]

/-- No-network fallback section (lines 98-101). -/
def netFallbackArgs (m : Machine) : List String :=
  if m.ifaces.length = 0 then ["-net", "none"] else []

/-- The two flag/value pairs contributed by one interface (lines 103-119). -/
def ifaceArgs (i : NetDev) : List String :=
  ["-netdev", backendValue i, "-device", deviceValue i]

/-- Display section (lines 121-124). -/
def vncArgs (m : Machine) : List String :=
  if 0 < m.vnc.length then ["-vnc", m.vnc] else []

/-- Control-socket section (lines 126-129). -/
def monitorArgs (m : Machine) : List String :=
  if 0 < m.monitor.length then ["-qmp", "unix:" ++ m.monitor ++ ",server,nowait"] else []

theorem foldl_append_flatMap {α : Type} (f : α → List String) (l : List α)
    (init : List String) :
    l.foldl (fun a x => a ++ f x) init = init ++ l.flatMap f := by
  induction l generalizing init with
  | nil => simp
  | cons x xs ih => simp [ih, List.append_assoc]

/-- `renderArgs` decomposes into the eight sections of the rendering
contract, concatenated in the fixed order of `Start`. -/
theorem renderArgs_eq_sections (m : Machine) (kvm : Bool) :
    renderArgs m kvm =
      sizingArgs m ++ kvmArgs kvm ++ cdArgs m ++ m.drives.flatMap driveArgs ++
      netFallbackArgs m ++ m.ifaces.flatMap ifaceArgs ++ vncArgs m ++ monitorArgs m := by
  by_cases hk : kvm <;> by_cases hc : 0 < m.cd.length <;>
    by_cases hn : m.ifaces.length = 0 <;> by_cases hv : 0 < m.vnc.length <;>
    by_cases hm : 0 < m.monitor.length <;>
    simp [renderArgs, sizingArgs, kvmArgs, cdArgs, driveArgs, netFallbackArgs,
      ifaceArgs, vncArgs, monitorArgs, foldl_append_flatMap, hk, hc, hn, hv, hm,
      List.append_assoc] <;> rfl

/-- C1: the argument list rendered by `Start` follows the fixed order of
the rendering contract — sizing, then KVM, then CD-ROM, then one drive
pair per drive in insertion order, then the network flags, then the
display pair, then the control-socket pair — and the scenario descriptor
(cores 2, memory 1024MB, one qcow2 drive, nothing else, no KVM) renders
exactly `-smp 2 -m 1024 -drive file=/vm.qcow2,format=qcow2 -net none`. -/
theorem C1_render_order :
    (∀ (m : Machine) (kvm : Bool),
      renderArgs m kvm =
        sizingArgs m ++ kvmArgs kvm ++ cdArgs m ++ m.drives.flatMap driveArgs ++
        netFallbackArgs m ++ m.ifaces.flatMap ifaceArgs ++ vncArgs m ++ monitorArgs m) ∧
    renderArgs ((NewMachine 2 1024).AddDrive (Drive.mk "/vm.qcow2" "qcow2")) false =
      ["-smp", "2", "-m", "1024", "-drive", "file=/vm.qcow2,format=qcow2",
        "-net", "none"] :=
  ⟨renderArgs_eq_sections, by decide⟩

/-- C4: setting the CD-ROM image, the display endpoint, or the
control-socket path twice leaves only the last value: the double-set
descriptor equals the single-set descriptor, its rendering equals the
single-set rendering, and the corresponding section holds exactly the
pair for the second value, nothing derived from the first. -/
theorem C4_last_write_wins (m : Machine) (kvm : Bool) (v1 v2 a1 a2 : String)
    (p1 p2 : Int) (s1 s2 : String) :
    (m.AddCDRom v1).AddCDRom v2 = m.AddCDRom v2 ∧
    (m.AddVNC a1 p1).AddVNC a2 p2 = m.AddVNC a2 p2 ∧
    (m.AddMonitorUnix s1).AddMonitorUnix s2 = m.AddMonitorUnix s2 ∧
    renderArgs ((m.AddCDRom v1).AddCDRom v2) kvm = renderArgs (m.AddCDRom v2) kvm ∧
    renderArgs ((m.AddVNC a1 p1).AddVNC a2 p2) kvm = renderArgs (m.AddVNC a2 p2) kvm ∧
    renderArgs ((m.AddMonitorUnix s1).AddMonitorUnix s2) kvm =
      renderArgs (m.AddMonitorUnix s2) kvm ∧
    cdArgs ((m.AddCDRom v1).AddCDRom v2) =
      (if 0 < v2.length then ["-cdrom", v2] else []) ∧
    vncArgs ((m.AddVNC a1 p1).AddVNC a2 p2) =
      (if 0 < (a2 ++ ":" ++ toString p2).length then ["-vnc", a2 ++ ":" ++ toString p2]
        else []) ∧
    monitorArgs ((m.AddMonitorUnix s1).AddMonitorUnix s2) =
      (if 0 < s2.length then ["-qmp", "unix:" ++ s2 ++ ",server,nowait"] else []) :=
  ⟨rfl, rfl, rfl, rfl, rfl, rfl, rfl, rfl, rfl⟩

/-- C5: appending drives (and interfaces) preserves insertion order in
the rendered output — the pair of D1 appears before the pair of D2 —
and rendering after appending a drive keeps every other section fixed
while extending the drive section by exactly the new pair. -/
theorem C5_append_order (m : Machine) (d1 d2 : Drive) (n1 n2 : NetDev) (kvm : Bool) :
    (∃ pre mid post, renderArgs ((m.AddDrive d1).AddDrive d2) kvm =
      pre ++ ["-drive", driveValue d1] ++ mid ++ ["-drive", driveValue d2] ++ post) ∧
    (m.AddDrive d1).drives.flatMap driveArgs =
      m.drives.flatMap driveArgs ++ ["-drive", driveValue d1] ∧
    renderArgs (m.AddDrive d1) kvm =
      sizingArgs m ++ kvmArgs kvm ++ cdArgs m ++
        (m.drives.flatMap driveArgs ++ ["-drive", driveValue d1]) ++
        netFallbackArgs m ++ m.ifaces.flatMap ifaceArgs ++ vncArgs m ++ monitorArgs m ∧
    (∃ pre mid post,
      renderArgs ((m.AddNetworkDevice n1).AddNetworkDevice n2) kvm =
        pre ++ ifaceArgs n1 ++ mid ++ ifaceArgs n2 ++ post) := by
  refine ⟨?_, ?_, ?_, ?_⟩
  · refine ⟨sizingArgs m ++ kvmArgs kvm ++ cdArgs m ++ m.drives.flatMap driveArgs, [],
      netFallbackArgs m ++ m.ifaces.flatMap ifaceArgs ++ vncArgs m ++ monitorArgs m, ?_⟩
    rw [renderArgs_eq_sections]
    simp [Machine.AddDrive, sizingArgs, cdArgs, netFallbackArgs, vncArgs, monitorArgs,
      driveArgs, List.append_assoc]
  · simp [Machine.AddDrive, driveArgs]
  · rw [renderArgs_eq_sections]
    simp [Machine.AddDrive, sizingArgs, cdArgs, netFallbackArgs, vncArgs, monitorArgs,
      driveArgs, List.append_assoc]
  · refine ⟨sizingArgs m ++ kvmArgs kvm ++ cdArgs m ++ m.drives.flatMap driveArgs ++
      m.ifaces.flatMap ifaceArgs, [], vncArgs m ++ monitorArgs m, ?_⟩
    rw [renderArgs_eq_sections]
    simp [Machine.AddNetworkDevice, sizingArgs, cdArgs, netFallbackArgs, vncArgs,
      monitorArgs, List.append_assoc]

/-- C6: attaching a drive via an image descriptor is the same operation
as attaching the drive built from its path and format fields. -/
theorem C6_drive_image_equiv (m : Machine) (img : Image) :
    m.AddDriveImage img = m.AddDrive (Drive.mk img.Path img.Format) :=
  rfl

/-- C8: rendering is a pure, deterministic function of the descriptor,
the architecture and the KVM flag: the rendering pass leaves the
descriptor unchanged, and rendering again from the post-state yields
character-for-character the same binary name and argument list. -/
theorem C8_render_pure (m : Machine) (arch : String) (kvm : Bool) :
    (startRender m arch kvm).1 = m ∧
    (startRender (startRender m arch kvm).1 arch kvm).2 =
      (startRender m arch kvm).2 :=
  ⟨rfl, rfl⟩

/-- C10: every mutation operation changes only its own target field:
each operation leaves all other fields untouched and performs exactly
its documented update; in particular `Cores` and `Memory` are modified
by no operation. -/
theorem C10_frame (m : Machine) (dev : String) (d : Drive) (img : Image)
    (n : NetDev) (addr : String) (port : Int) (sock : String) :
    ((m.AddCDRom dev).Cores = m.Cores ∧ (m.AddCDRom dev).Memory = m.Memory ∧
      (m.AddCDRom dev).vnc = m.vnc ∧ (m.AddCDRom dev).monitor = m.monitor ∧
      (m.AddCDRom dev).drives = m.drives ∧ (m.AddCDRom dev).ifaces = m.ifaces ∧
      (m.AddCDRom dev).cd = dev) ∧
    ((m.AddDrive d).Cores = m.Cores ∧ (m.AddDrive d).Memory = m.Memory ∧
      (m.AddDrive d).cd = m.cd ∧ (m.AddDrive d).vnc = m.vnc ∧
      (m.AddDrive d).monitor = m.monitor ∧ (m.AddDrive d).ifaces = m.ifaces ∧
      (m.AddDrive d).drives = m.drives ++ [d]) ∧
    ((m.AddDriveImage img).Cores = m.Cores ∧ (m.AddDriveImage img).Memory = m.Memory ∧
      (m.AddDriveImage img).cd = m.cd ∧ (m.AddDriveImage img).vnc = m.vnc ∧
      (m.AddDriveImage img).monitor = m.monitor ∧
      (m.AddDriveImage img).ifaces = m.ifaces ∧
      (m.AddDriveImage img).drives = m.drives ++ [Drive.mk img.Path img.Format]) ∧
    ((m.AddNetworkDevice n).Cores = m.Cores ∧
      (m.AddNetworkDevice n).Memory = m.Memory ∧
      (m.AddNetworkDevice n).cd = m.cd ∧ (m.AddNetworkDevice n).vnc = m.vnc ∧
      (m.AddNetworkDevice n).monitor = m.monitor ∧
      (m.AddNetworkDevice n).drives = m.drives ∧
      (m.AddNetworkDevice n).ifaces = m.ifaces ++ [n]) ∧
    ((m.AddVNC addr port).Cores = m.Cores ∧ (m.AddVNC addr port).Memory = m.Memory ∧
      (m.AddVNC addr port).cd = m.cd ∧ (m.AddVNC addr port).monitor = m.monitor ∧
      (m.AddVNC addr port).drives = m.drives ∧
      (m.AddVNC addr port).ifaces = m.ifaces ∧
      (m.AddVNC addr port).vnc = addr ++ ":" ++ toString port) ∧
    ((m.AddMonitorUnix sock).Cores = m.Cores ∧
      (m.AddMonitorUnix sock).Memory = m.Memory ∧
      (m.AddMonitorUnix sock).cd = m.cd ∧ (m.AddMonitorUnix sock).vnc = m.vnc ∧
      (m.AddMonitorUnix sock).drives = m.drives ∧
      (m.AddMonitorUnix sock).ifaces = m.ifaces ∧
      (m.AddMonitorUnix sock).monitor = sock) :=
  ⟨⟨rfl, rfl, rfl, rfl, rfl, rfl, rfl⟩, ⟨rfl, rfl, rfl, rfl, rfl, rfl, rfl⟩,
    ⟨rfl, rfl, rfl, rfl, rfl, rfl, rfl⟩, ⟨rfl, rfl, rfl, rfl, rfl, rfl, rfl⟩,
    ⟨rfl, rfl, rfl, rfl, rfl, rfl, rfl⟩, ⟨rfl, rfl, rfl, rfl, rfl, rfl, rfl⟩⟩

/-- C2: with no interfaces the rendered list holds exactly the one
`-net none` pair and no backend/device pairs; with interfaces it holds
no `-net none` pair and, per interface in insertion order, exactly one
`-netdev` pair followed by one `-device` pair, the `,ifname=` suffix
appearing on the backend value iff the interface name is set and the
`,mac=` suffix appearing on the device value iff the MAC is set. -/
theorem C2_network_section (m : Machine) (kvm : Bool) :
    (m.ifaces = [] →
      renderArgs m kvm =
        sizingArgs m ++ kvmArgs kvm ++ cdArgs m ++ m.drives.flatMap driveArgs ++
        ["-net", "none"] ++ vncArgs m ++ monitorArgs m) ∧
    (m.ifaces ≠ [] →
      renderArgs m kvm =
        sizingArgs m ++ kvmArgs kvm ++ cdArgs m ++ m.drives.flatMap driveArgs ++
        m.ifaces.flatMap ifaceArgs ++ vncArgs m ++ monitorArgs m) ∧
    (∀ i : NetDev,
      ifaceArgs i = ["-netdev", backendValue i, "-device", deviceValue i] ∧
      (0 < i.IfName.length →
        backendValue i = i.«Type» ++ ",id=" ++ i.ID ++ ",ifname=" ++ i.IfName) ∧
      (i.IfName = "" → backendValue i = i.«Type» ++ ",id=" ++ i.ID) ∧
      (0 < i.MAC.length →
        deviceValue i = "virtio-net,netdev=" ++ i.ID ++ ",mac=" ++ i.MAC) ∧
      (i.MAC = "" → deviceValue i = "virtio-net,netdev=" ++ i.ID)) := by
  refine ⟨fun h => ?_, fun h => ?_, fun i => ?_⟩
  · rw [renderArgs_eq_sections]
    simp [netFallbackArgs, h]
  · rw [renderArgs_eq_sections]
    simp [netFallbackArgs, h]
  · refine ⟨rfl, fun h => ?_, fun h => ?_, fun h => ?_, fun h => ?_⟩ <;>
      simp [backendValue, deviceValue, h]

/-- C2 witness: the empty-interface and one-interface decompositions and
the suffix rules, evaluated at concrete descriptors and interfaces. -/
theorem C2_network_section_witness :
    renderArgs (NewMachine 1 2) false = ["-smp", "1", "-m", "2", "-net", "none"] ∧
    renderArgs ((NewMachine 1 2).AddNetworkDevice (NetDev.mk "user" "net0" "" "")) false =
      ["-smp", "1", "-m", "2", "-netdev", "user,id=net0", "-device",
        "virtio-net,netdev=net0"] ∧
    backendValue (NetDev.mk "tap" "n1" "tap0" "") = "tap,id=n1,ifname=tap0" ∧
    deviceValue (NetDev.mk "tap" "n1" "tap0" "") = "virtio-net,netdev=n1" ∧
    deviceValue (NetDev.mk "user" "n2" "" "52:54:00:12:34:56") =
      "virtio-net,netdev=n2,mac=52:54:00:12:34:56" :=
  ⟨((C2_network_section (NewMachine 1 2) false).1 rfl).trans (by decide),
    ((C2_network_section ((NewMachine 1 2).AddNetworkDevice
        (NetDev.mk "user" "net0" "" "")) false).2.1 (by decide)).trans (by decide),
    (((C2_network_section (NewMachine 1 2) false).2.2
        (NetDev.mk "tap" "n1" "tap0" "")).2.1 (by decide)).trans (by decide),
    ((C2_network_section (NewMachine 1 2) false).2.2
        (NetDev.mk "tap" "n1" "tap0" "")).2.2.2.2 rfl,
    (((C2_network_section (NewMachine 1 2) false).2.2
        (NetDev.mk "user" "n2" "" "52:54:00:12:34:56")).2.2.2.1 (by decide)).trans
      (by decide)⟩

/-- C3: `Start` returns a handle iff it returns no error; a spawn
failure comes back synchronously as the unwrapped underlying error with
no handle; an abnormal exit observed within the grace interval comes
back, with no handle, as an error whose message names
`qemu-system-<arch>` for the architecture passed in. -/
theorem C3_start_result (m : Machine) (arch : String) (kvm : Bool) (env : LaunchEnv) :
    ((start m arch kvm env).1.isSome ↔ (start m arch kvm env).2 = none) ∧
    (∀ e, env.spawnErr = some e → start m arch kvm env = (none, some e)) ∧
    (∀ e, env.spawnErr = none → env.waitErr = some e → env.deliveredInGrace = true →
      start m arch kvm env =
        (none, some ("\x27qemu-system-" ++ arch ++ "\x27: " ++ e))) := by
  refine ⟨?_, fun e he => ?_, fun e hs hw hd => ?_⟩
  · rcases henv : env.spawnErr with _ | e
    · rcases hw : env.waitErr with _ | e <;> rcases hd : env.deliveredInGrace with _ | _ <;>
        simp [start, selectRecv, channelSends, henv, hw, hd]
    · simp [start, henv]
  · simp [start, he]
  · simp [start, selectRecv, channelSends, hs, hw, hd]

/-- C3 witness: a concrete spawn failure and a concrete early abnormal
exit, both returning no handle and the stated error. -/
theorem C3_start_result_witness :
    start (NewMachine 1 2) "x86_64" false
        (LaunchEnv.mk (some "fork failed") 0 none false) =
      (none, some "fork failed") ∧
    start (NewMachine 1 2) "x86_64" false
        (LaunchEnv.mk none 7 (some "exit status 1") true) =
      (none, some "\x27qemu-system-x86_64\x27: exit status 1") :=
  ⟨(C3_start_result (NewMachine 1 2) "x86_64" false
      (LaunchEnv.mk (some "fork failed") 0 none false)).2.1 "fork failed" rfl,
    (C3_start_result (NewMachine 1 2) "x86_64" false
      (LaunchEnv.mk none 7 (some "exit status 1") true)).2.2 "exit status 1" rfl rfl rfl⟩

/-- C7: `Start` validates nothing: rendering is total, always begins
with the decimal renderings of the supplied cores and memory — also for
zero or negative cores — and emits interface ids verbatim even when
duplicated, never producing a typed validation error. -/
theorem C7_no_validation :
    (∀ (m : Machine) (kvm : Bool),
      (renderArgs m kvm).take 4 =
        ["-smp", toString m.Cores, "-m", toString m.Memory]) ∧
    renderArgs (NewMachine (-3) 0) false = ["-smp", "-3", "-m", "0", "-net", "none"] ∧
    renderArgs (((NewMachine 0 0).AddNetworkDevice
        (NetDev.mk "user" "n0" "" "")).AddNetworkDevice
        (NetDev.mk "tap" "n0" "" "")) false =
      ["-smp", "0", "-m", "0", "-netdev", "user,id=n0", "-device",
        "virtio-net,netdev=n0", "-netdev", "tap,id=n0", "-device",
        "virtio-net,netdev=n0"] := by
  refine ⟨fun m kvm => ?_, by decide, by decide⟩
  rw [renderArgs_eq_sections]
  simp only [List.append_assoc]
  rw [show (4 : ℕ) = (sizingArgs m).length by simp [sizingArgs]]
  rw [List.take_left]
  rfl

/-- C9: the background goroutine delivers at most one value on the
completion channel, nothing on a clean exit and exactly the wrapped
error on a non-clean exit; the single non-blocking read observes either
that one value or nothing, never a duplicate. -/
theorem C9_channel_discipline (arch : String) (waitErr : Option String)
    (delivered : Bool) :
    (channelSends arch waitErr).length ≤ 1 ∧
    channelSends arch none = [] ∧
    (∀ e, waitErr = some e →
      channelSends arch waitErr = ["\x27qemu-system-" ++ arch ++ "\x27: " ++ e]) ∧
    (selectRecv delivered (channelSends arch waitErr) = none ∨
      ∃ e, waitErr = some e ∧
        selectRecv delivered (channelSends arch waitErr) =
          some ("\x27qemu-system-" ++ arch ++ "\x27: " ++ e)) := by
  refine ⟨?_, rfl, fun e he => ?_, ?_⟩
  · cases waitErr <;> simp [channelSends]
  · simp [channelSends, he]
  · cases hw : waitErr with
    | none => exact Or.inl (by simp [channelSends, selectRecv])
    | some e =>
      cases delivered with
      | false => exact Or.inl (by simp [selectRecv])
      | true => exact Or.inr ⟨e, rfl, by simp [channelSends, selectRecv]⟩

/-- C9 witness: concrete channel traces — a clean exit sends nothing, a
non-clean exit sends the single wrapped error, and the non-blocking read
observes it exactly once when delivered in time. -/
theorem C9_channel_discipline_witness :
    channelSends "arm" (some "exit status 2") =
      ["\x27qemu-system-arm\x27: exit status 2"] :=
  (C9_channel_discipline "arm" (some "exit status 2") true).2.2.1 "exit status 2" rfl

end Qemu
